import Mathlib

/-!
Shallow embedding of the poster-layout core of `nsw_topo_split`
(`src/nsw_topo_split/__init__.py`).

Conventions of the embedding:
* Python floats are modelled as exact rationals (`ℚ`); Python ints as `ℤ`.
* Python operations that can raise (`ZeroDivisionError` from `/` with a zero
  divisor, `ValueError` from `min`/`max` of an empty sequence) are modelled
  with `Option`, `none` standing for the raised exception.
* `warnings.warn` is a non-aborting side effect; it is modelled by returning
  the emitted warnings alongside the result.
* External collaborators (pymupdf page objects) are modelled by their data:
  a page is its bounding rectangle, text extraction results are passed in as
  a list of blocks, and `COLLAR_REGEX.search` (string matching, external to
  the geometry) is passed in as a predicate on strings.
-/

/-- Constant `MM_PER_PT = 25.4 / 72` from the source. -/
def MM_PER_PT : ℚ := 25.4 / 72

/-- Constant `NOMINAL_COVER_WIDTH_PT = 326` from the source. -/
def NOMINAL_COVER_WIDTH_PT : ℚ := 326

/-- Embedding of `mm_to_pt`. -/
def mm_to_pt (x_mm : ℚ) : ℚ := x_mm / MM_PER_PT

/-- Embedding of `pt_to_mm`. -/
def pt_to_mm (x_pt : ℚ) : ℚ := x_pt * MM_PER_PT

/-- Embedding of a `pymupdf.Rect`: coordinates `(x0, y0, x1, y1)` in points. -/
structure Rect where
  x0 : ℚ
  y0 : ℚ
  x1 : ℚ
  y1 : ℚ
  deriving DecidableEq

/-- Width of a `pymupdf.Rect`: `abs(x1 - x0)`. -/
def Rect.width (r : Rect) : ℚ := |r.x1 - r.x0|

/-- Height of a `pymupdf.Rect`: `abs(y1 - y0)`. -/
def Rect.height (r : Rect) : ℚ := |r.y1 - r.y0|

/-- Embedding of `pymupdf.Rect.__add__` with a 4-sequence: componentwise sum,
as used in `pagesrc.bound() + (margin, margin, -margin, -margin)` and
`cropbox += (0.0, 0.0, -cover_width, 0.0)`. -/
def rect_add4 (r : Rect) (a b c d : ℚ) : Rect :=
  ⟨r.x0 + a, r.y0 + b, r.x1 + c, r.y1 + d⟩

/-- Embedding of `_choose_n_pages_1d`:
`math.ceil((from_size - overlap) / (to_size - overlap))`.
Python raises `ZeroDivisionError` when the divisor is exactly zero, which is
modelled by `none`. -/
def choose_n_pages_1d (from_size to_size overlap : ℚ) : Option ℤ :=
  if to_size - overlap = 0 then none
  else some ⌈(from_size - overlap) / (to_size - overlap)⌉

/-- Embedding of `_calc_layout_size`:
`n_pages * page_size - (n_pages - 1) * overlap`. -/
def calc_layout_size (page_size : ℚ) (n_pages : ℤ) (overlap : ℚ) : ℚ :=
  (n_pages : ℚ) * page_size - ((n_pages : ℚ) - 1) * overlap

/-- Embedding of the origin-clamping `if`/`elif` chain of
`_calc_layout_params_1d` (lines 207-210 of the source): keep the layout
inside the cropbox. -/
def clamp_origin (origin size : ℚ) (cropbox : ℚ × ℚ) : ℚ :=
  if origin < cropbox.1 then cropbox.1
  else if origin + size > cropbox.2 then cropbox.2 - size
  else origin

/-- Embedding of `_calc_layout_params_1d`. -/
def calc_layout_params_1d (page_size : ℚ) (n_pages : ℤ) (min_overlap : ℚ)
    (cropbox : ℚ × ℚ) (allow_whitespace : Bool) (artbox : ℚ × ℚ) : ℚ × ℚ :=
  if calc_layout_size page_size n_pages min_overlap > cropbox.2 - cropbox.1 then
    if allow_whitespace = false ∧ 1 < n_pages then
      (cropbox.1,
        ((n_pages : ℚ) * page_size - (cropbox.2 - cropbox.1)) / ((n_pages : ℚ) - 1))
    else
      ((cropbox.1 + cropbox.2) / 2 - calc_layout_size page_size n_pages min_overlap / 2,
        min_overlap)
  else
    (clamp_origin
      ((artbox.1 + artbox.2) / 2 - calc_layout_size page_size n_pages min_overlap / 2)
      (calc_layout_size page_size n_pages min_overlap) cropbox,
      min_overlap)

/-- Embedding of one `_warn_n_pages` advisory: the axis label and the
`amount_cut` argument (already converted to millimetres by the caller). -/
structure AxisWarning where
  axis : String
  amount_cut : ℚ
  deriving DecidableEq

/-- Embedding of `_calc_layout_params`. The two `warnings.warn` side effects
are modelled as a returned list, in emission order (x first, then y). -/
def calc_layout_params (page_size : ℚ × ℚ) (n_pages : ℤ × ℤ)
    (min_overlap : ℚ × ℚ) (cropbox : Rect) (allow_whitespace : Bool)
    (artbox : Rect) : (ℚ × ℚ) × (ℚ × ℚ) × List AxisWarning :=
  let rx := calc_layout_params_1d page_size.1 n_pages.1 min_overlap.1
    (cropbox.x0, cropbox.x1) allow_whitespace (artbox.x0, artbox.x1)
  let width := calc_layout_size page_size.1 n_pages.1 rx.2
  let wx : List AxisWarning :=
    if width < artbox.x1 - artbox.x0 then
      [⟨"x", pt_to_mm ((artbox.x1 - artbox.x0) - width)⟩]
    else []
  let ry := calc_layout_params_1d page_size.2 n_pages.2 min_overlap.2
    (cropbox.y0, cropbox.y1) allow_whitespace (artbox.y0, artbox.y1)
  let height := calc_layout_size page_size.2 n_pages.2 ry.2
  let wy : List AxisWarning :=
    if height < artbox.y1 - artbox.y0 then
      [⟨"y", pt_to_mm ((artbox.y1 - artbox.y0) - height)⟩]
    else []
  ((rx.1, ry.1), (rx.2, ry.2), wx ++ wy)

/-- Embedding of one output page of `_make_poster`: grid position `(j, i)`
and the clip rectangle passed to `show_pdf_page`, expressed relative to the
poster page. -/
structure Tile where
  j : ℕ
  i : ℕ
  clip : Rect
  deriving DecidableEq

/-- Embedding of the body of the `_make_poster` tile loop for indices
`(j, i)`: the page origin is `layout_origin + (j, i) * (page_size - overlap)`
and the clip rectangle is the cropbox translated by minus the page origin
(`cropbox - page_origin * 2` in pymupdf arithmetic). -/
def poster_tile (layout_origin overlap page_size : ℚ × ℚ) (cropbox : Rect)
    (j i : ℕ) : Tile :=
  ⟨j, i,
    ⟨cropbox.x0 - (layout_origin.1 + (j : ℚ) * (page_size.1 - overlap.1)),
      cropbox.y0 - (layout_origin.2 + (i : ℚ) * (page_size.2 - overlap.2)),
      cropbox.x1 - (layout_origin.1 + (j : ℚ) * (page_size.1 - overlap.1)),
      cropbox.y1 - (layout_origin.2 + (i : ℚ) * (page_size.2 - overlap.2))⟩⟩

/-- Embedding of Python `range(n)` for an `int` argument: `0, ..., n - 1`,
empty when `n ≤ 0`. -/
def pyRange (n : ℤ) : List ℕ := List.range n.toNat

/-- Embedding of the nested `for j ... for i ...` loop of `_make_poster`:
the output pages in emission order. -/
def make_poster_tiles (layout_origin overlap page_size : ℚ × ℚ)
    (n_pages : ℤ × ℤ) (cropbox : Rect) : List Tile :=
  (pyRange n_pages.1).flatMap fun j =>
    (pyRange n_pages.2).map fun i =>
      poster_tile layout_origin overlap page_size cropbox j i

/-- Result of `_make_poster`: the resolved layout parameters, the emitted
advisories and the output pages in order. -/
structure PosterResult where
  n_pages : ℤ × ℤ
  origin : ℚ × ℚ
  overlap : ℚ × ℚ
  warnings : List AxisWarning
  tiles : List Tile
  deriving DecidableEq

/-- Embedding of `_make_poster`. `src_bound` is `pagesrc.bound()`; the
`cropbox` and `artbox` keyword arguments default to the page bound and the
cropbox respectively, and `n_pages` is chosen by `_choose_n_pages` from the
artbox dimensions when the caller omits it. `none` models an uncaught
Python exception (`ZeroDivisionError` in `_choose_n_pages_1d`). -/
def make_poster (src_bound : Rect) (page_size : ℚ × ℚ)
    (n_pages : Option (ℤ × ℤ)) (min_overlap : ℚ × ℚ) (cropbox : Option Rect)
    (allow_whitespace : Bool) (artbox : Option Rect) : Option PosterResult :=
  let cb := cropbox.getD src_bound
  let ab := artbox.getD cb
  let chosen : Option (ℤ × ℤ) :=
    match n_pages with
    | some n => some n
    | none =>
      match choose_n_pages_1d ab.width page_size.1 min_overlap.1 with
      | none => none
      | some nx =>
        match choose_n_pages_1d ab.height page_size.2 min_overlap.2 with
        | none => none
        | some ny => some (nx, ny)
  match chosen with
  | none => none
  | some n =>
    let r := calc_layout_params page_size n min_overlap cb allow_whitespace ab
    some ⟨n, r.1, r.2.1, r.2.2, make_poster_tiles r.1 r.2.1 page_size n cb⟩

/-- Embedding of Python `round` (round-half-to-even, as used on the exact
value of `page_width / NOMINAL_COVER_WIDTH_PT`). -/
def round_half_even (x : ℚ) : ℤ :=
  if x - ⌊x⌋ < 1 / 2 then ⌊x⌋
  else if 1 / 2 < x - ⌊x⌋ then ⌊x⌋ + 1
  else if ⌊x⌋ % 2 = 0 then ⌊x⌋ else ⌊x⌋ + 1

/-- Embedding of `_guess_cover_width`:
`page_width / round(page_width / NOMINAL_COVER_WIDTH_PT)`. Python raises
`ZeroDivisionError` when the rounded divisor is zero, modelled by `none`. -/
def guess_cover_width (page_width : ℚ) : Option ℚ :=
  if round_half_even (page_width / NOMINAL_COVER_WIDTH_PT) = 0 then none
  else some (page_width / (round_half_even (page_width / NOMINAL_COVER_WIDTH_PT) : ℚ))

/-- Embedding of one `show_pdf_page` call of `_make_cover`: the destination
rectangle on the cover page and the source clip rectangle. -/
structure Placement where
  dest : Rect
  clip : Rect
  deriving DecidableEq

/-- Embedding of the single output page of `_make_cover`. -/
structure CoverPage where
  width : ℚ
  height : ℚ
  placements : List Placement
  deriving DecidableEq

/-- Embedding of `_make_cover`. `src_bound` is `pagesrc.bound()`; `none`
models the uncaught `ZeroDivisionError` from `_guess_cover_width`. -/
def make_cover (src_bound : Rect) (margin : ℚ) : Option CoverPage :=
  let cropbox := rect_add4 src_bound margin margin (-margin) (-margin)
  (guess_cover_width cropbox.width).map fun cover_width =>
    ⟨2 * cover_width, cropbox.height / 2,
      [⟨⟨0, 0, cover_width, cropbox.height / 2⟩,
        ⟨cropbox.x1 - cover_width, (cropbox.y0 + cropbox.y1) / 2,
          cropbox.x1, cropbox.y1⟩⟩,
        ⟨⟨cover_width, 0, 2 * cover_width, cropbox.height / 2⟩,
          ⟨cropbox.x1 - cover_width, cropbox.y0,
            cropbox.x1, (cropbox.y0 + cropbox.y1) / 2⟩⟩]⟩

/-- Embedding of a text block as returned by `page.get_text("blocks", ...)`:
bounding coordinates, the block text, the block number and the block type
(`btype = 0` means a text block). -/
structure Block where
  x0 : ℚ
  y0 : ℚ
  x1 : ℚ
  y1 : ℚ
  text : String
  block_no : ℤ
  btype : ℤ

/-- Embedding of `_is_map_text`. The regular-expression search
`COLLAR_REGEX.search` is external string matching and is passed in as the
predicate `collar_matches`. -/
def is_map_text (collar_matches : String → Bool) (b : Block) : Bool :=
  decide (b.btype = 0) && collar_matches b.text

/-- Minimum of a list of rationals; `none` on the empty list, modelling the
`ValueError` raised by Python `min([])`. -/
def list_min : List ℚ → Option ℚ
  | [] => none
  | x :: xs => some (xs.foldl min x)

/-- Maximum of a list of rationals; `none` on the empty list, modelling the
`ValueError` raised by Python `max([])`. -/
def list_max : List ℚ → Option ℚ
  | [] => none
  | x :: xs => some (xs.foldl max x)

/-- Embedding of `_get_bbox`. The extracted blocks (already restricted to
the `clip` rectangle by the external text extractor) are passed in as
`blocks`. `none` models the uncaught `ValueError` raised by `min` on an
empty sequence when no block passes the filter. -/
def get_bbox (blocks : List Block) (filter_func : Block → Bool) : Option Rect :=
  let matched := blocks.filter filter_func
  let xcoords := matched.flatMap fun b => [b.x0, b.x1]
  let ycoords := matched.flatMap fun b => [b.y0, b.y1]
  match list_min xcoords, list_min ycoords, list_max xcoords, list_max ycoords with
  | some a, some b, some c, some d => some ⟨a, b, c, d⟩
  | _, _, _, _ => none

/-- Embedding of `make_split_map`. `src_bound` is `pagesrc.bound()`;
`blocks` is the external text extraction result for the cropped region and
`collar_matches` embeds `COLLAR_REGEX.search`. `none` models an uncaught
Python exception (`ZeroDivisionError` or `ValueError`). -/
def make_split_map (src_bound : Rect) (blocks : List Block)
    (collar_matches : String → Bool) (page_size : ℚ × ℚ)
    (n_pages : Option (ℤ × ℤ)) (min_overlap : ℚ × ℚ)
    (allow_whitespace : Bool) (margin : ℚ) : Option PosterResult :=
  let cropbox0 := rect_add4 src_bound margin margin (-margin) (-margin)
  (guess_cover_width cropbox0.width).bind fun cover_width =>
    let cropbox := rect_add4 cropbox0 0 0 (-cover_width) 0
    (get_bbox blocks (is_map_text collar_matches)).bind fun artbox =>
      make_poster src_bound page_size n_pages min_overlap (some cropbox)
        allow_whitespace (some artbox)

/-- Claim C1: on an axis where the minimum-overlap layout exceeds the crop
box, with `allow_whitespace = false` and more than one page the solver pins
the origin to the crop box's lower edge and increases the overlap to
`(n_pages * page_size - cropbox_size) / (n_pages - 1)`, making the realized
layout size equal the crop-box size exactly; otherwise (whitespace allowed
or a single page) it centers the minimum-overlap layout on the crop box and
keeps the overlap at the minimum. -/
theorem c1_whitespace_elimination (ps : ℚ) (n : ℤ) (mo : ℚ) (c a : ℚ × ℚ)
    (aw : Bool) (h : c.2 - c.1 < calc_layout_size ps n mo) :
    (aw = false → 1 < n →
      calc_layout_params_1d ps n mo c aw a =
        (c.1, ((n : ℚ) * ps - (c.2 - c.1)) / ((n : ℚ) - 1)) ∧
      calc_layout_size ps n (((n : ℚ) * ps - (c.2 - c.1)) / ((n : ℚ) - 1)) =
        c.2 - c.1) ∧
    ((aw = true ∨ n = 1) →
      calc_layout_params_1d ps n mo c aw a =
        ((c.1 + c.2) / 2 - calc_layout_size ps n mo / 2, mo)) := by
  constructor
  · intro haw hn
    constructor
    · unfold calc_layout_params_1d
      rw [if_pos h, if_pos ⟨haw, hn⟩]
    · have hne : (n : ℚ) - 1 ≠ 0 := by
        have h1 : (1 : ℚ) < (n : ℚ) := by exact_mod_cast hn
        linarith
      unfold calc_layout_size
      field_simp
  · intro hor
    have hnot : ¬(aw = false ∧ 1 < n) := by
      rcases hor with h1 | h1
      · simp [h1]
      · simp [h1]
    unfold calc_layout_params_1d
    rw [if_pos h, if_neg hnot]

/-- Witness for C1: page size 400, 3 pages, minimum overlap 20, crop box
(0, 900): the minimum-overlap layout has size 1160 > 900, the overlap grows
to 150 and the realized size is exactly 900. -/
theorem c1_whitespace_elimination_witness :
    calc_layout_params_1d 400 3 20 (0, 900) false (0, 900) = (0, 150) ∧
    calc_layout_size 400 3 150 = 900 := by
  have h := c1_whitespace_elimination 400 3 20 (0, 900) (0, 900) false
    (by norm_num [calc_layout_size])
  have h1 := h.1 rfl (by norm_num)
  constructor
  · rw [h1.1]
    norm_num
  · have h2 := h1.2
    have e : ((((3 : ℤ) : ℚ)) * 400 - ((900 : ℚ) - 0)) / (((3 : ℤ) : ℚ) - 1)
        = 150 := by norm_num
    rw [e] at h2
    simpa using h2

/-- Claim C2: on an axis where the minimum-overlap layout fits inside the
crop box, the overlap stays at the minimum and the origin is the art-box
center minus half the layout size, clamped so the layout stays inside the
crop box: below the lower edge it becomes `cropbox.lo`, past the upper edge
it becomes `cropbox.hi - layout_size`. -/
theorem c2_artbox_centering (ps : ℚ) (n : ℤ) (mo : ℚ) (c a : ℚ × ℚ)
    (aw : Bool) (h : calc_layout_size ps n mo ≤ c.2 - c.1) :
    (calc_layout_params_1d ps n mo c aw a).2 = mo ∧
    (calc_layout_params_1d ps n mo c aw a).1 =
      clamp_origin ((a.1 + a.2) / 2 - calc_layout_size ps n mo / 2)
        (calc_layout_size ps n mo) c ∧
    ((a.1 + a.2) / 2 - calc_layout_size ps n mo / 2 < c.1 →
      (calc_layout_params_1d ps n mo c aw a).1 = c.1) ∧
    (c.1 ≤ (a.1 + a.2) / 2 - calc_layout_size ps n mo / 2 →
      c.2 < (a.1 + a.2) / 2 - calc_layout_size ps n mo / 2
        + calc_layout_size ps n mo →
      (calc_layout_params_1d ps n mo c aw a).1 =
        c.2 - calc_layout_size ps n mo) ∧
    (c.1 ≤ (a.1 + a.2) / 2 - calc_layout_size ps n mo / 2 →
      (a.1 + a.2) / 2 - calc_layout_size ps n mo / 2
        + calc_layout_size ps n mo ≤ c.2 →
      (calc_layout_params_1d ps n mo c aw a).1 =
        (a.1 + a.2) / 2 - calc_layout_size ps n mo / 2) := by
  have hpair : calc_layout_params_1d ps n mo c aw a =
      (clamp_origin ((a.1 + a.2) / 2 - calc_layout_size ps n mo / 2)
        (calc_layout_size ps n mo) c, mo) := by
    unfold calc_layout_params_1d
    rw [if_neg (not_lt.2 h)]
  refine ⟨by rw [hpair], by rw [hpair], ?_, ?_, ?_⟩
  · intro h1
    rw [hpair]
    simp only [clamp_origin]
    rw [if_pos h1]
  · intro h1 h2
    rw [hpair]
    simp only [clamp_origin]
    rw [if_neg (not_lt.2 h1), if_pos h2]
  · intro h1 h2
    rw [hpair]
    simp only [clamp_origin]
    rw [if_neg (not_lt.2 h1), if_neg (not_lt.2 h2)]

/-- Witness for C2: page size 400, 2 pages, minimum overlap 20 (layout size
780) inside crop box (0, 1000), art box (100, 300): the centered origin -190
is clamped to the lower crop edge 0 and the overlap stays 20. -/
theorem c2_artbox_centering_witness :
    (calc_layout_params_1d 400 2 20 (0, 1000) false (100, 300)).2 = 20 ∧
    (calc_layout_params_1d 400 2 20 (0, 1000) false (100, 300)).1 = 0 := by
  have h := c2_artbox_centering 400 2 20 (0, 1000) (100, 300) false
    (by norm_num [calc_layout_size])
  refine ⟨h.1, ?_⟩
  have h1 := h.2.2.1 (by norm_num [calc_layout_size])
  simpa using h1

/-- Helper: length of a column-major flattened grid. -/
theorem flatMap_range_map_length {α : Type} (g : ℕ → ℕ → α) (nx ny : ℕ) :
    ((List.range nx).flatMap fun j => (List.range ny).map (g j)).length
      = nx * ny := by
  induction nx with
  | zero => simp
  | succ m ih =>
    rw [List.range_succ, List.flatMap_append, List.length_append, ih]
    simp [Nat.succ_mul]

/-- Helper: entry `j * ny + i` of a column-major flattened grid. -/
theorem flatMap_range_map_getElem {α : Type} (g : ℕ → ℕ → α) (nx ny j i : ℕ)
    (hj : j < nx) (hi : i < ny) :
    ((List.range nx).flatMap fun j => (List.range ny).map (g j))[j * ny + i]? =
      some (g j i) := by
  induction nx with
  | zero => omega
  | succ m ih =>
    rw [List.range_succ, List.flatMap_append]
    rcases Nat.lt_or_ge j m with hjm | hjm
    · rw [List.getElem?_append, flatMap_range_map_length]
      have hlt : j * ny + i < m * ny := by
        calc j * ny + i < j * ny + ny := by omega
          _ = (j + 1) * ny := by ring
          _ ≤ m * ny := Nat.mul_le_mul_right ny hjm
      rw [if_pos hlt]
      exact ih hjm
    · have hj' : j = m := by omega
      subst hj'
      rw [List.getElem?_append_right
        (by rw [flatMap_range_map_length]; omega)]
      rw [flatMap_range_map_length]
      have hidx : j * ny + i - j * ny = i := by omega
      rw [hidx]
      simp [List.getElem?_map, List.getElem?_range hi]

/-- Claim C3: the tile generator of `_make_poster` yields exactly
`n_pages.x * n_pages.y` tiles, in column-major order (the vertical index `i`
cycles fully before the horizontal index `j` advances), no tile is skipped,
and the tile at `(j, i)` clips the crop box translated by minus the page
origin `(origin.x + j * (width - overlap.x), origin.y + i * (height - overlap.y))`. -/
theorem c3_tiles_dense_column_major (o ov ps : ℚ × ℚ) (nx ny : ℤ) (c : Rect) :
    (make_poster_tiles o ov ps (nx, ny) c).length = nx.toNat * ny.toNat ∧
    ∀ j i : ℕ, j < nx.toNat → i < ny.toNat →
      (make_poster_tiles o ov ps (nx, ny) c)[j * ny.toNat + i]? =
        some (poster_tile o ov ps c j i) := by
  constructor
  · exact flatMap_range_map_length _ _ _
  · intro j i hj hi
    exact flatMap_range_map_getElem _ _ _ _ _ hj hi

/-- Witness for C3: a 2-by-3 grid has 6 tiles and the tile at grid position
(1, 2) sits at flat index 1 * 3 + 2 = 5. -/
theorem c3_tiles_dense_column_major_witness :
    (make_poster_tiles (0, 0) (0, 0) (10, 10) (2, 3) ⟨0, 0, 5, 5⟩).length
      = (2 : ℤ).toNat * (3 : ℤ).toNat ∧
    (make_poster_tiles (0, 0) (0, 0) (10, 10) (2, 3)
        ⟨0, 0, 5, 5⟩)[1 * (3 : ℤ).toNat + 2]? =
      some (poster_tile (0, 0) (0, 0) (10, 10) ⟨0, 0, 5, 5⟩ 1 2) := by
  have h := c3_tiles_dense_column_major (0, 0) (0, 0) (10, 10) 2 3 ⟨0, 0, 5, 5⟩
  exact ⟨h.1, h.2 1 2 (by decide) (by decide)⟩

/-- Claim C4: when the caller omits the page count, `_make_poster` chooses it
per axis as `ceil((artbox_size - min_overlap) / (page_size - min_overlap))`;
in the concrete scenario with art box and crop box width 900, page width 400
and minimum overlap 20 the chosen count is 3, and with whitespace
elimination the overlap becomes 150 with the origin at the crop-box edge. -/
theorem c4_auto_page_count (a p o : ℚ) (sb : Rect) (ps mo : ℚ × ℚ)
    (cb : Option Rect) (ab : Rect) (aw : Bool) (nx ny : ℤ)
    (h : p - o ≠ 0)
    (hx : choose_n_pages_1d ab.width ps.1 mo.1 = some nx)
    (hy : choose_n_pages_1d ab.height ps.2 mo.2 = some ny) :
    choose_n_pages_1d a p o = some ⌈(a - o) / (p - o)⌉ ∧
    (make_poster sb ps none mo cb aw (some ab)).map PosterResult.n_pages =
      some (nx, ny) ∧
    choose_n_pages_1d 900 400 20 = some 3 ∧
    (calc_layout_params (400, 400) (3, 3) (20, 20) ⟨0, 0, 900, 900⟩ false
        ⟨0, 0, 900, 900⟩).1 = (0, 0) ∧
    (calc_layout_params (400, 400) (3, 3) (20, 20) ⟨0, 0, 900, 900⟩ false
        ⟨0, 0, 900, 900⟩).2.1 = (150, 150) := by
  refine ⟨?_, ?_, ?_, ?_, ?_⟩
  · unfold choose_n_pages_1d
    rw [if_neg h]
  · simp only [make_poster, Option.getD_some, hx, hy]
    rfl
  · unfold choose_n_pages_1d
    rw [if_neg (by norm_num)]
    norm_num [Int.ceil_eq_iff]
  · norm_num [calc_layout_params, calc_layout_params_1d, calc_layout_size,
      clamp_origin]
  · norm_num [calc_layout_params, calc_layout_params_1d, calc_layout_size,
      clamp_origin]

/-- Witness for C4 at the concrete scenario: art box 900 wide and high, page
size 400, minimum overlap 20 gives the chosen counts (3, 3). -/
theorem c4_auto_page_count_witness :
    choose_n_pages_1d 900 400 20 = some ⌈((900 : ℚ) - 20) / (400 - 20)⌉ ∧
    (make_poster ⟨0, 0, 900, 900⟩ (400, 400) none (20, 20) none false
        (some ⟨0, 0, 900, 900⟩)).map PosterResult.n_pages = some (3, 3) := by
  have h := c4_auto_page_count 900 400 20 ⟨0, 0, 900, 900⟩ (400, 400) (20, 20)
    none ⟨0, 0, 900, 900⟩ false 3 3 (by norm_num)
    (by
      have hw : Rect.width ⟨0, 0, 900, 900⟩ = 900 := by
        simp [Rect.width, abs_of_nonneg]
      rw [hw]
      unfold choose_n_pages_1d
      rw [if_neg (by norm_num)]
      norm_num [Int.ceil_eq_iff])
    (by
      have hh : Rect.height ⟨0, 0, 900, 900⟩ = 900 := by
        simp [Rect.height, abs_of_nonneg]
      rw [hh]
      unfold choose_n_pages_1d
      rw [if_neg (by norm_num)]
      norm_num [Int.ceil_eq_iff])
  exact ⟨h.1, h.2.1⟩

/-- Claim C5: `_calc_layout_params` emits a coverage advisory for an axis if
and only if the realized layout size computed with the final overlap is
strictly smaller than the art-box size on that axis; the advisory carries
the shortfall converted to millimetres, never aborts, and the layout
parameters are returned unchanged alongside the advisories. -/
theorem c5_coverage_advisory (ps : ℚ × ℚ) (n : ℤ × ℤ) (mo : ℚ × ℚ) (c : Rect)
    (aw : Bool) (a : Rect) :
    ((∃ w ∈ (calc_layout_params ps n mo c aw a).2.2, w.axis = "x") ↔
      calc_layout_size ps.1 n.1
          (calc_layout_params_1d ps.1 n.1 mo.1 (c.x0, c.x1) aw (a.x0, a.x1)).2 <
        a.x1 - a.x0) ∧
    ((∃ w ∈ (calc_layout_params ps n mo c aw a).2.2, w.axis = "y") ↔
      calc_layout_size ps.2 n.2
          (calc_layout_params_1d ps.2 n.2 mo.2 (c.y0, c.y1) aw (a.y0, a.y1)).2 <
        a.y1 - a.y0) ∧
    ((∃ w ∈ (calc_layout_params ps n mo c aw a).2.2, w.axis = "x") →
      ⟨"x", pt_to_mm ((a.x1 - a.x0) - calc_layout_size ps.1 n.1
          (calc_layout_params_1d ps.1 n.1 mo.1 (c.x0, c.x1) aw (a.x0, a.x1)).2)⟩
        ∈ (calc_layout_params ps n mo c aw a).2.2) ∧
    (calc_layout_params ps n mo c aw a).1 =
      ((calc_layout_params_1d ps.1 n.1 mo.1 (c.x0, c.x1) aw (a.x0, a.x1)).1,
        (calc_layout_params_1d ps.2 n.2 mo.2 (c.y0, c.y1) aw (a.y0, a.y1)).1) ∧
    (calc_layout_params ps n mo c aw a).2.1 =
      ((calc_layout_params_1d ps.1 n.1 mo.1 (c.x0, c.x1) aw (a.x0, a.x1)).2,
        (calc_layout_params_1d ps.2 n.2 mo.2 (c.y0, c.y1) aw (a.y0, a.y1)).2) := by
  have hxy : ("y" : String) ≠ "x" := by decide
  refine ⟨?_, ?_, ?_, rfl, rfl⟩
  · simp only [calc_layout_params]
    split_ifs with h1 h2 h2 <;>
      simp [h1, h2, List.mem_append, hxy]
  · simp only [calc_layout_params]
    split_ifs with h1 h2 h2 <;>
      simp [h1, h2, List.mem_append, hxy]
  · simp only [calc_layout_params]
    split_ifs with h1 h2 h2 <;>
      simp [h1, h2, List.mem_append, hxy]

/-- Helper: `_get_bbox` yields nothing when no block passes the filter, since
`min` of the empty coordinate list raises. -/
theorem get_bbox_eq_none (blocks : List Block) (f : Block → Bool)
    (hf : ∀ b ∈ blocks, f b = false) : get_bbox blocks f = none := by
  have hfilter : blocks.filter f = [] :=
    List.filter_eq_nil_iff.mpr (by simpa using hf)
  simp only [get_bbox, hfilter]
  rfl

/-- Helper: binding an `Option` with a constantly failing continuation
fails. -/
theorem opt_bind_const_none {α β : Type} (o : Option α) :
    (o.bind fun _ => (none : Option β)) = none := by
  cases o <;> rfl

/-- Counterexample for C6: a layout request with an explicitly requested
page count of zero does not fail with a configuration error; the layout
computation succeeds and simply produces no tiles. -/
theorem c6_counterexample :
    (make_poster ⟨0, 0, 900, 900⟩ (400, 400) (some (0, 0)) (20, 20) none
        false none).map PosterResult.tiles = some [] ∧
    (make_poster ⟨0, 0, 900, 900⟩ (400, 400) (some (0, 0)) (20, 20) none
        false none).isSome = true := by
  exact ⟨rfl, rfl⟩

/-- Claim C6 (amended): the layout computation performs no configuration
validation. A zero or negative explicitly requested page count on either
axis does not abort: the computation succeeds and yields an empty tile
list. The only immediate failure is automatic page-count selection when the
horizontal overlap equals the page size, which dies with a division-by-zero
error (not a reported configuration error) before any tiles are produced. -/
theorem c6_no_config_validation (src : Rect) (ps mo : ℚ × ℚ)
    (c : Option Rect) (aw : Bool) (nx ny : ℤ) :
    (nx ≤ 0 → (make_poster src ps (some (nx, ny)) mo c aw none).map
        PosterResult.tiles = some []) ∧
    (ny ≤ 0 → (make_poster src ps (some (nx, ny)) mo c aw none).map
        PosterResult.tiles = some []) ∧
    (ps.1 = mo.1 → make_poster src ps none mo c aw none = none) := by
  refine ⟨?_, ?_, ?_⟩
  · intro h
    simp only [make_poster]
    simp [make_poster_tiles, pyRange, Int.toNat_of_nonpos h]
  · intro h
    simp only [make_poster]
    simp [make_poster_tiles, pyRange, Int.toNat_of_nonpos h]
  · intro h
    have hz : choose_n_pages_1d ((c.getD src).width) ps.1 mo.1 = none := by
      unfold choose_n_pages_1d
      rw [if_pos (sub_eq_zero.mpr h)]
    simp only [make_poster, Option.getD_none, hz]

/-- Witness for C6 (amended): a requested count of 0 horizontal pages yields
an empty successful layout, and automatic selection with overlap 400 equal
to the page width 400 fails. -/
theorem c6_no_config_validation_witness :
    (make_poster ⟨0, 0, 900, 900⟩ (400, 400) (some (0, 2)) (20, 20) none
        false none).map PosterResult.tiles = some [] ∧
    make_poster ⟨0, 0, 900, 900⟩ (400, 400) none (400, 20) none false
        none = none := by
  exact ⟨(c6_no_config_validation ⟨0, 0, 900, 900⟩ (400, 400) (20, 20) none
      false 0 2).1 (by norm_num),
    (c6_no_config_validation ⟨0, 0, 900, 900⟩ (400, 400) (400, 20) none
      false 0 0).2.2 rfl⟩

/-- Counterexample for C7: with no matching text block, bounding-box
inference yields nothing (conjunct 1), but the caller `make_split_map` does
not substitute the full crop box as the art box: it propagates the failure
and produces no output (conjunct 2), although the substituted call would
have succeeded (conjunct 3). -/
theorem c7_counterexample :
    get_bbox [] (is_map_text fun _ => false) = none ∧
    make_split_map ⟨0, 0, 978, 600⟩ [] (fun _ => false) (400, 400)
        (some (2, 2)) (20, 20) false 0 = none ∧
    (make_poster ⟨0, 0, 978, 600⟩ (400, 400) (some (2, 2)) (20, 20)
        (some ⟨0, 0, 652, 600⟩) false (some ⟨0, 0, 652, 600⟩)).isSome
      = true := by
  refine ⟨rfl, ?_, rfl⟩
  simp only [make_split_map, get_bbox_eq_none [] (is_map_text fun _ => false)
    (by simp), Option.none_bind]
  exact opt_bind_const_none _

/-- Claim C7 (amended): bounding-box inference on an empty match set fails
(yields no rectangle, in particular never an inverted one), and the caller
does not fall back to the crop box: `make_split_map` propagates the failure
and produces no split map. -/
theorem c7_empty_match_propagates (blocks : List Block) (f : Block → Bool)
    (src : Rect) (m : String → Bool) (ps : ℚ × ℚ) (np : Option (ℤ × ℤ))
    (mo : ℚ × ℚ) (aw : Bool) (mg : ℚ)
    (hf : ∀ b ∈ blocks, f b = false)
    (hm : ∀ b ∈ blocks, is_map_text m b = false) :
    get_bbox blocks f = none ∧
    make_split_map src blocks m ps np mo aw mg = none := by
  refine ⟨get_bbox_eq_none blocks f hf, ?_⟩
  simp only [make_split_map, get_bbox_eq_none blocks (is_map_text m) hm,
    Option.none_bind]
  exact opt_bind_const_none _

/-- Witness for C7 (amended): the empty block list. -/
theorem c7_empty_match_propagates_witness :
    get_bbox [] (fun _ => false) = none ∧
    make_split_map ⟨0, 0, 900, 900⟩ [] (fun _ => false) (400, 400)
        (some (2, 2)) (20, 20) false 0 = none := by
  exact c7_empty_match_propagates [] (fun _ => false) ⟨0, 0, 900, 900⟩
    (fun _ => false) (400, 400) (some (2, 2)) (20, 20) false 0
    (by simp) (by simp)

/-- Claim C8: when the guessed panel width is defined, the cover composer
produces a single page of width twice the panel width and height half the
margin-trimmed source height, with the bottom-right region of the trimmed
source (title block) placed in the left half and the top-right region
(legend) in the right half. -/
theorem c8_cover_composition (src : Rect) (margin gw : ℚ)
    (h : guess_cover_width
        (rect_add4 src margin margin (-margin) (-margin)).width = some gw) :
    make_cover src margin = some
      ⟨2 * gw, (rect_add4 src margin margin (-margin) (-margin)).height / 2,
        [⟨⟨0, 0, gw,
            (rect_add4 src margin margin (-margin) (-margin)).height / 2⟩,
          ⟨(rect_add4 src margin margin (-margin) (-margin)).x1 - gw,
            ((rect_add4 src margin margin (-margin) (-margin)).y0 +
              (rect_add4 src margin margin (-margin) (-margin)).y1) / 2,
            (rect_add4 src margin margin (-margin) (-margin)).x1,
            (rect_add4 src margin margin (-margin) (-margin)).y1⟩⟩,
          ⟨⟨gw, 0, 2 * gw,
            (rect_add4 src margin margin (-margin) (-margin)).height / 2⟩,
          ⟨(rect_add4 src margin margin (-margin) (-margin)).x1 - gw,
            (rect_add4 src margin margin (-margin) (-margin)).y0,
            (rect_add4 src margin margin (-margin) (-margin)).x1,
            ((rect_add4 src margin margin (-margin) (-margin)).y0 +
              (rect_add4 src margin margin (-margin) (-margin)).y1) / 2⟩⟩]⟩ := by
  simp only [make_cover, h, Option.map_some']

/-- Witness for C8 at the concrete scenario: a 978pt-wide, 600pt-high source
with no margin gives panel width 978 / round(978/326) = 326 and a 652pt-wide
cover page, title block on the left sourced from the bottom-right quadrant
and legend on the right sourced from the top-right quadrant. -/
theorem c8_cover_composition_witness :
    make_cover ⟨0, 0, 978, 600⟩ 0 = some
      ⟨652, 300,
        [⟨⟨0, 0, 326, 300⟩, ⟨652, 300, 978, 600⟩⟩,
          ⟨⟨326, 0, 652, 300⟩, ⟨652, 0, 978, 300⟩⟩]⟩ := by
  have hw : (rect_add4 (⟨0, 0, 978, 600⟩ : Rect) 0 0 (-0) (-0)).width
      = 978 := by
    simp only [rect_add4, Rect.width]
    norm_num
  have hfloor : ⌊(978 : ℚ) / 326⌋ = 3 := by norm_num [Int.floor_eq_iff]
  have hround : round_half_even ((978 : ℚ) / 326) = 3 := by
    unfold round_half_even
    rw [hfloor]
    norm_num
  have hg : guess_cover_width
      ((rect_add4 (⟨0, 0, 978, 600⟩ : Rect) 0 0 (-0) (-0)).width)
      = some 326 := by
    rw [hw]
    unfold guess_cover_width
    rw [show (978 : ℚ) / NOMINAL_COVER_WIDTH_PT = 978 / 326 by
      norm_num [NOMINAL_COVER_WIDTH_PT]]
    rw [hround]
    norm_num
  have h := c8_cover_composition ⟨0, 0, 978, 600⟩ 0 326 hg
  rw [h]
  norm_num [rect_add4, Rect.height]

/-- Counterexample for C9: with art-box size 10 smaller than the minimum
overlap 20 and page size 400 larger than the overlap, the automatically
chosen page count is 0, violating the `pageCount >= 1` invariant. -/
theorem c9_counterexample :
    choose_n_pages_1d 10 400 20 = some 0 ∧ (20 : ℚ) < 400 ∧ (10 : ℚ) < 20 := by
  refine ⟨?_, by norm_num, by norm_num⟩
  unfold choose_n_pages_1d
  rw [if_neg (by norm_num)]
  norm_num [Int.ceil_eq_iff]

/-- Claim C9 (amended): with `page_size > min_overlap`, the automatically
chosen page count is at least 1 if and only if the art-box size exceeds the
minimum overlap; when the art-box size is at most the minimum overlap the
chosen count is nonpositive, violating the `pageCount >= 1` invariant. -/
theorem c9_page_count_bound (a p o : ℚ) (h : o < p) :
    choose_n_pages_1d a p o = some ⌈(a - o) / (p - o)⌉ ∧
    (o < a → 1 ≤ ⌈(a - o) / (p - o)⌉) ∧
    (a ≤ o → ⌈(a - o) / (p - o)⌉ ≤ 0) := by
  have hpo : (0 : ℚ) < p - o := sub_pos.2 h
  refine ⟨?_, ?_, ?_⟩
  · unfold choose_n_pages_1d
    rw [if_neg (ne_of_gt hpo)]
  · intro ha
    have hq : (0 : ℚ) < (a - o) / (p - o) := div_pos (sub_pos.2 ha) hpo
    have := Int.ceil_pos.2 hq
    omega
  · intro ha
    have hq : (a - o) / (p - o) ≤ 0 :=
      div_nonpos_of_nonpos_of_nonneg (sub_nonpos.2 ha) hpo.le
    exact Int.ceil_le.2 (by exact_mod_cast hq)

/-- Witness for C9 (amended): art-box size 10, page size 400, overlap 20
gives a nonpositive chosen count. -/
theorem c9_page_count_bound_witness :
    choose_n_pages_1d 10 400 20 = some ⌈((10 : ℚ) - 20) / (400 - 20)⌉ ∧
    ⌈((10 : ℚ) - 20) / (400 - 20)⌉ ≤ 0 := by
  have h := c9_page_count_bound 10 400 20 (by norm_num)
  exact ⟨h.1, h.2.2 (by norm_num)⟩

/-- Helper: round-half-to-even of a value above one half is at least 1. -/
theorem round_half_even_pos (x : ℚ) (h : 1 / 2 < x) :
    1 ≤ round_half_even x := by
  unfold round_half_even
  have hf0 : 0 ≤ ⌊x⌋ := Int.floor_nonneg.2 (by linarith)
  rcases eq_or_lt_of_le hf0 with hf | hf
  · have hx0 : (⌊x⌋ : ℚ) = 0 := by exact_mod_cast hf.symm
    have hr : 1 / 2 < x - (⌊x⌋ : ℚ) := by rw [hx0]; linarith
    rw [if_neg (by linarith), if_pos hr]
    omega
  · split_ifs <;> omega

/-- Helper: round-half-to-even of a value between 0 and one half (both ends
included) is 0, since exactly one half rounds to the even integer 0. -/
theorem round_half_even_zero (x : ℚ) (h0 : 0 ≤ x) (h1 : x ≤ 1 / 2) :
    round_half_even x = 0 := by
  have hf : ⌊x⌋ = 0 :=
    Int.floor_eq_zero_iff.2 (Set.mem_Ico.2 ⟨h0, by linarith⟩)
  unfold round_half_even
  rw [hf]
  have hx0 : x - ((0 : ℤ) : ℚ) = x := by push_cast; ring
  rw [hx0]
  rcases lt_or_eq_of_le h1 with hlt | heq
  · rw [if_pos hlt]
  · rw [if_neg (by linarith), if_neg (by linarith), if_pos (by norm_num)]

/-- Counterexample for C10: at margin-trimmed width exactly 163pt (which the
claim includes in the well-defined range `w >= 163`), Python's
round-half-to-even sends 163/326 = 1/2 to 0, so the divisor is zero and the
panel-width estimate fails. -/
theorem c10_counterexample :
    round_half_even ((163 : ℚ) / 326) = 0 ∧
    guess_cover_width 163 = none := by
  have hz : round_half_even ((163 : ℚ) / 326) = 0 :=
    round_half_even_zero _ (by norm_num) (by norm_num)
  refine ⟨hz, ?_⟩
  unfold guess_cover_width
  rw [if_pos (by
    rw [show (163 : ℚ) / NOMINAL_COVER_WIDTH_PT = 163 / 326 by
      norm_num [NOMINAL_COVER_WIDTH_PT]]
    exact hz)]

/-- Claim C10 (amended): the panel-width estimate divides by
`round(w / 326)` under round-half-to-even, so it is well-defined and
positive exactly for trimmed widths `w > 163`; for `0 <= w <= 163` the
divisor is 0 (width 163 itself rounds 1/2 down to the even 0) and the
computation fails with a division-by-zero error rather than a reported
configuration error; both the cover composer and the map cropping path
reach this division and propagate the failure. -/
theorem c10_cover_width_threshold (w : ℚ) (src : Rect) (mg : ℚ)
    (blocks : List Block) (m : String → Bool) (ps : ℚ × ℚ)
    (np : Option (ℤ × ℤ)) (mo : ℚ × ℚ) (aw : Bool) :
    (163 < w →
      1 ≤ round_half_even (w / NOMINAL_COVER_WIDTH_PT) ∧
      guess_cover_width w =
        some (w / (round_half_even (w / NOMINAL_COVER_WIDTH_PT) : ℚ)) ∧
      0 < w / (round_half_even (w / NOMINAL_COVER_WIDTH_PT) : ℚ)) ∧
    (0 ≤ w → w ≤ 163 →
      round_half_even (w / NOMINAL_COVER_WIDTH_PT) = 0 ∧
      guess_cover_width w = none) ∧
    ((rect_add4 src mg mg (-mg) (-mg)).width ≤ 163 →
      make_cover src mg = none ∧
      make_split_map src blocks m ps np mo aw mg = none) := by
  have key : ∀ v : ℚ, 0 ≤ v → v ≤ 163 →
      round_half_even (v / NOMINAL_COVER_WIDTH_PT) = 0 ∧
      guess_cover_width v = none := by
    intro v hv0 hv163
    have hle : v / NOMINAL_COVER_WIDTH_PT ≤ 1 / 2 := by
      simp only [NOMINAL_COVER_WIDTH_PT]
      rw [div_le_iff₀ (by norm_num : (0 : ℚ) < 326)]
      linarith
    have hnn : 0 ≤ v / NOMINAL_COVER_WIDTH_PT :=
      div_nonneg hv0 (by simp only [NOMINAL_COVER_WIDTH_PT]; norm_num)
    have hz := round_half_even_zero _ hnn hle
    refine ⟨hz, ?_⟩
    unfold guess_cover_width
    rw [if_pos hz]
  refine ⟨?_, fun h0 h163 => key w h0 h163, ?_⟩
  · intro h
    have hhalf : 1 / 2 < w / NOMINAL_COVER_WIDTH_PT := by
      simp only [NOMINAL_COVER_WIDTH_PT]
      rw [lt_div_iff₀ (by norm_num : (0 : ℚ) < 326)]
      linarith
    have h1 := round_half_even_pos _ hhalf
    have hne : round_half_even (w / NOMINAL_COVER_WIDTH_PT) ≠ 0 := by omega
    refine ⟨h1, ?_, ?_⟩
    · unfold guess_cover_width
      rw [if_neg hne]
    · have hc : (1 : ℚ) ≤ (round_half_even (w / NOMINAL_COVER_WIDTH_PT) : ℚ) := by
        exact_mod_cast h1
      exact div_pos (by linarith) (by linarith)
  · intro hw
    have habs : 0 ≤ (rect_add4 src mg mg (-mg) (-mg)).width := abs_nonneg _
    have hg := (key _ habs hw).2
    constructor
    · simp only [make_cover, hg, Option.map_none']
    · simp only [make_split_map, hg, Option.none_bind]

/-- Witness for C10 (amended): trimmed width 163 fails the estimate, and
both the cover composer and the split-map path fail on a 163pt-wide page. -/
theorem c10_cover_width_threshold_witness :
    guess_cover_width 163 = none ∧
    make_cover ⟨0, 0, 163, 600⟩ 0 = none ∧
    make_split_map ⟨0, 0, 163, 600⟩ [] (fun _ => false) (400, 400) none
      (20, 20) false 0 = none := by
  have h := c10_cover_width_threshold 163 ⟨0, 0, 163, 600⟩ 0 []
    (fun _ => false) (400, 400) none (20, 20) false
  have hre : (rect_add4 (⟨0, 0, 163, 600⟩ : Rect) 0 0 (-0) (-0)).width
      ≤ 163 := by
    simp only [rect_add4, Rect.width]
    norm_num
  exact ⟨(h.2.1 (by norm_num) (by norm_num)).2, (h.2.2 hre).1, (h.2.2 hre).2⟩
